import Mathlib

/-!
Shallow embedding of the key-rotation recognition handler
(`api/recognize.js`, the "金鑰輪換版" Vercel serverless function).

The embedded code:
* `getCurrentKeyIndex` / `setCurrentKeyIndex` — the Vercel KV (Index
  Store) read/write helpers, including their degrade-to-default and
  swallow-on-failure behaviour;
* `handler` — the main request handler: method check, body check,
  configuration check, key-pool parsing (`split(',').map(trim)`),
  request-body construction (`imageBase64.split(',')[1]`), and the
  bounded retry loop over the key pool (`handlerLoop`).

The upstream `fetch` is modelled as a function from the loop-iteration
number and the credential used (`apiKeys[keyIndex]`, which is `undefined`
— here `none` — when the index is out of range) to a `FetchResult`:
either a response with a status code and body, or a thrown transport
error.  The handler output records the caller-visible result, the final
Index Store state, the sequence of values written to the store, and the
trace of credentials attempted (one entry per upstream request).
-/

namespace GeminiOcrProxy

/-- Outcome of one upstream `fetch`: a response (status code + body),
or the call itself throwing (network/DNS-level failure). -/
inductive FetchResult where
  | resp (status : Nat) (body : String)
  | throw
deriving DecidableEq, Repr

/-- Caller-visible outcome of the handler. -/
inductive HandlerResult where
  | methodNotAllowed
  | noImage
  | configError
  | success (payload : String)
  | failFast (status : Nat) (body : String)
  | exhausted
deriving DecidableEq, Repr

/-- HTTP status code attached to each handler outcome
(405 / 400 / 500 / 200 / upstream status / 429). -/
def statusOf : HandlerResult → Nat
  | .methodNotAllowed => 405
  | .noImage => 400
  | .configError => 500
  | .success _ => 200
  | .failFast s _ => s
  | .exhausted => 429

/-- Presence of the `KV_REST_API_URL` / `KV_REST_API_TOKEN` environment
variables (a `false` field models an absent or empty variable). -/
structure KVConfig where
  hasUrl : Bool
  hasToken : Bool
deriving DecidableEq, Repr

/-- State of the Vercel KV backing store: either every network call to
it fails (`failing`), or it is reachable and holds an optional stored
integer (`working`). -/
inductive KVNet where
  | failing
  | working (stored : Option Nat)
deriving DecidableEq, Repr

/-- Embeds `getCurrentKeyIndex`: returns 0 when the KV environment
variables are missing, when the KV fetch throws, or when no value has
ever been stored; otherwise the stored value. -/
def getCurrentKeyIndex (cfg : KVConfig) (net : KVNet) : Nat :=
  if !cfg.hasUrl || !cfg.hasToken then 0
  else
    match net with
    | .failing => 0
    | .working none => 0
    | .working (some v) => v

/-- Embeds `setCurrentKeyIndex`: a no-op when the KV environment
variables are missing; on a failing store the error is caught and
swallowed (state unchanged); otherwise overwrites the stored cell. -/
def setCurrentKeyIndex (cfg : KVConfig) (net : KVNet) (index : Nat) : KVNet :=
  if !cfg.hasUrl || !cfg.hasToken then net
  else
    match net with
    | .failing => .failing
    | .working _ => .working (some index)

/-- JavaScript `String.prototype.split` with a single-character
separator, on the character list of the string: `"".split(',') = [""]`,
`"a,,b".split(',') = ["a","","b"]`. -/
def jsSplit (sep : Char) : List Char → List (List Char)
  | [] => [[]]
  | c :: cs =>
    if c = sep then [] :: jsSplit sep cs
    else
      match jsSplit sep cs with
      | [] => [[c]]
      | l :: ls => (c :: l) :: ls

/-- `s.split(sep)` on strings. -/
def jsSplitStr (sep : Char) (s : String) : List String :=
  (jsSplit sep s.toList).map (fun l => ⟨l⟩)

/-- Embeds `const pureBase64 = imageBase64.split(',')[1]`: the second
segment of the comma-split, or `none` (JS `undefined`) when the payload
contains no comma. -/
def pureBase64 (imageBase64 : String) : Option String :=
  (jsSplitStr ',' imageBase64)[1]?

/-- The recognition prompt sent with every request. -/
def promptText : String :=
  "這是一份文件（可能是圖片或PDF的一頁）。請精確地辨識並提取其中的所有中文字，如文件中有簡體中文字，則請在轉換時全部轉為繁體中文字。請遵循原始文件的段落結構來組織文字，忽略單純因為排版而產生的換行，只在段落結束時才換行。請直接回傳純文字結果，不要包含任何標題、解釋或額外的格式。"

/-- The parts of the upstream request body the core controls: the text
prompt and the inline-data part (`mime_type`, `data`).  `data` is
`none` when `pureBase64` is JS `undefined` (the field is then absent
from the serialized JSON). -/
structure RequestBody where
  text : String
  mimeType : String
  data : Option String
deriving DecidableEq, Repr

/-- Embeds the `requestBody` object built at lines 96–104 of the
handler. -/
def mkRequestBody (imageBase64 : String) : RequestBody :=
  ⟨promptText, "image/jpeg", pureBase64 imageBase64⟩

/-- `geminiResponse.ok`: HTTP status in the range 200–299. -/
def isOk (status : Nat) : Bool :=
  200 ≤ status && status ≤ 299

/-- Full observable outcome of one handler invocation: caller-visible
result, final Index Store state, the values written to the store (in
order), and the credentials attempted upstream (in order, `none` for an
out-of-range pool lookup). -/
structure LoopOut where
  result : HandlerResult
  net : KVNet
  writes : List Nat
  trace : List (Option String)
deriving DecidableEq, Repr

/-- Embeds the retry loop (`for (let i = 0; i < totalKeys; i++)`).
`fuel` is the number of remaining iterations (initially
`apiKeys.length`), `i` the loop counter, `keyIndex` the current
rotation index, `net` the current Index Store state.  Per iteration:
success (2xx) returns the payload; 429 advances the index modulo the
pool size, persists it and continues; any other status fail-fasts with
that status and body; a thrown fetch advances and persists like 429. -/
def handlerLoop (upstream : Nat → Option String → FetchResult)
    (apiKeys : List String) (cfg : KVConfig) :
    Nat → Nat → Nat → KVNet → LoopOut
  | 0, _, _, net => ⟨.exhausted, net, [], []⟩
  | fuel + 1, i, keyIndex, net =>
    let currentKey := apiKeys[keyIndex]?
    match upstream i currentKey with
    | .resp status body =>
      if isOk status then ⟨.success body, net, [], [currentKey]⟩
      else if status = 429 then
        let k := (keyIndex + 1) % apiKeys.length
        let net2 := setCurrentKeyIndex cfg net k
        let rest := handlerLoop upstream apiKeys cfg fuel (i + 1) k net2
        ⟨rest.result, rest.net, k :: rest.writes, currentKey :: rest.trace⟩
      else ⟨.failFast status body, net, [], [currentKey]⟩
    | .throw =>
      let k := (keyIndex + 1) % apiKeys.length
      let net2 := setCurrentKeyIndex cfg net k
      let rest := handlerLoop upstream apiKeys cfg fuel (i + 1) k net2
      ⟨rest.result, rest.net, k :: rest.writes, currentKey :: rest.trace⟩

/-- JavaScript `String.prototype.trim`: removes leading and trailing
whitespace. -/
def jsTrim (s : String) : String :=
  ⟨((s.toList.dropWhile Char.isWhitespace).reverse.dropWhile
      Char.isWhitespace).reverse⟩

/-- The key pool parsed from `GEMINI_API_KEYS`:
`apiKeysString.split(',').map(key => key.trim())`. -/
def parseApiKeys (ks : String) : List String :=
  (jsSplitStr ',' ks).map jsTrim

/-- Embeds the main handler: method check (405), missing-image check
(400), configuration check on `GEMINI_API_KEYS` and `KV_REST_API_URL`
(500), then reads the rotation index from the store and runs the retry
loop over the parsed key pool. -/
def handler (method : String) (imageBase64 : Option String)
    (apiKeysString : Option String) (cfg : KVConfig) (net : KVNet)
    (upstream : Nat → Option String → FetchResult) : LoopOut :=
  if method ≠ "POST" then ⟨.methodNotAllowed, net, [], []⟩
  else
    match imageBase64 with
    | none => ⟨.noImage, net, [], []⟩
    | some img =>
      if img = "" then ⟨.noImage, net, [], []⟩
      else
        match apiKeysString with
        | none => ⟨.configError, net, [], []⟩
        | some ks =>
          if ks = "" ∨ cfg.hasUrl = false then ⟨.configError, net, [], []⟩
          else
            let apiKeys := parseApiKeys ks
            let keyIndex := getCurrentKeyIndex cfg net
            handlerLoop upstream apiKeys cfg apiKeys.length 0 keyIndex net

/-- Upstream behaviour for the `[A, B, C]` scenario: key `A` answers
quota-exhausted (429), key `B` answers success, anything else a 500. -/
def upstreamABC : Nat → Option String → FetchResult := fun _ key =>
  if key = some "A" then .resp 429 "quota"
  else if key = some "B" then .resp 200 "payloadB"
  else .resp 500 "other"

/-- C1: with pool `[A, B, C]` and stored index 0, where `A` returns
429 and `B` succeeds, the handler returns B's payload, writes exactly
the value 1 to the Index Store, and the persisted index at the end of
the call is 1. -/
theorem c1_rotation_success :
    handler "POST" (some "img64") (some "A,B,C") ⟨true, true⟩
      (.working (some 0)) upstreamABC =
      ⟨.success "payloadB", .working (some 1), [1], [some "A", some "B"]⟩ := by
  decide

/-! Helper lemmas about the split, the pool, and the loop. -/

theorem jsSplit_ne_nil (sep : Char) : ∀ l : List Char, jsSplit sep l ≠ []
  | [] => by simp [jsSplit]
  | c :: cs => by
    simp only [jsSplit]
    split
    · simp
    · split
      · simp
      · simp

theorem parseApiKeys_length_pos (ks : String) : 0 < (parseApiKeys ks).length := by
  have h := jsSplit_ne_nil ',' ks.toList
  simp [parseApiKeys, jsSplitStr]
  exact List.length_pos.mpr h

theorem handler_eq_loop (img ks : String) (cfg : KVConfig) (net : KVNet)
    (u : Nat → Option String → FetchResult)
    (himg : img ≠ "") (hks : ks ≠ "") (hurl : cfg.hasUrl = true) :
    handler "POST" (some img) (some ks) cfg net u =
      handlerLoop u (parseApiKeys ks) cfg (parseApiKeys ks).length 0
        (getCurrentKeyIndex cfg net) net := by
  simp [handler, himg, hks, hurl]

/-- C2: if the first attempted key yields a non-2xx, non-429 status, the
handler returns immediately with that status and body, makes exactly one
upstream attempt, performs no store write, and leaves the store
unchanged. -/
theorem c2_fail_fast (img ks : String) (cfg : KVConfig) (net : KVNet)
    (u : Nat → Option String → FetchResult) (s : Nat) (b : String)
    (himg : img ≠ "") (hks : ks ≠ "") (hurl : cfg.hasUrl = true)
    (hresp : u 0 ((parseApiKeys ks)[getCurrentKeyIndex cfg net]?) = .resp s b)
    (hnok : isOk s = false) (hn429 : s ≠ 429) :
    handler "POST" (some img) (some ks) cfg net u =
      ⟨.failFast s b, net, [], [(parseApiKeys ks)[getCurrentKeyIndex cfg net]?]⟩ := by
  rw [handler_eq_loop img ks cfg net u himg hks hurl]
  obtain ⟨f, hf⟩ := Nat.exists_eq_succ_of_ne_zero
    (Nat.pos_iff_ne_zero.mp (parseApiKeys_length_pos ks))
  rw [hf]
  simp [handlerLoop, hresp, hnok, hn429]

theorem c2_fail_fast_witness :
    handler "POST" (some "imgdata") (some "P,Q") ⟨true, true⟩ (.working (some 0))
        (fun _ _ => FetchResult.resp 400 "badreq") =
      ⟨.failFast 400 "badreq", .working (some 0), [], [some "P"]⟩ :=
  (c2_fail_fast "imgdata" "P,Q" ⟨true, true⟩ (.working (some 0))
    (fun _ _ => FetchResult.resp 400 "badreq") 400 "badreq"
    (by decide) (by decide) rfl rfl (by decide) (by decide)).trans (by decide)

/-- C3: a quota-exhaustion (429) response — and likewise a thrown
transport call — makes the loop advance the index to
`(keyIndex + 1) % pool size`, persist exactly that value to the Index
Store, and continue with the next iteration from the advanced index and
the updated store. -/
theorem c3_advance_persist (u : Nat → Option String → FetchResult)
    (apiKeys : List String) (cfg : KVConfig) (fuel i keyIndex : Nat) (net : KVNet)
    (h : u i (apiKeys[keyIndex]?) = .throw ∨
      ∃ b, u i (apiKeys[keyIndex]?) = .resp 429 b) :
    handlerLoop u apiKeys cfg (fuel + 1) i keyIndex net =
      (let k := (keyIndex + 1) % apiKeys.length
       let rest := handlerLoop u apiKeys cfg fuel (i + 1) k
         (setCurrentKeyIndex cfg net k)
       ⟨rest.result, rest.net, k :: rest.writes, apiKeys[keyIndex]? :: rest.trace⟩) := by
  rcases h with ht | ⟨b, hb⟩
  · simp [handlerLoop, ht]
  · simp [handlerLoop, hb, isOk]

theorem c3_advance_persist_witness :
    handlerLoop (fun _ _ => FetchResult.throw) ["K1", "K2"] ⟨true, true⟩ 1 0 0
        (.working (some 0)) =
      ⟨.exhausted, .working (some 1), [1], [some "K1"]⟩ :=
  (c3_advance_persist (fun _ _ => FetchResult.throw) ["K1", "K2"] ⟨true, true⟩
    0 0 0 (.working (some 0)) (Or.inl rfl)).trans (by decide)

theorem jsSplit_no_sep (sep : Char) : ∀ l : List Char, sep ∉ l → jsSplit sep l = [l]
  | [], _ => rfl
  | c :: cs, h => by
    have hc : ¬ c = sep := fun hh => h (hh ▸ List.mem_cons_self c cs)
    have ih := jsSplit_no_sep sep cs (fun hm => h (List.mem_cons_of_mem _ hm))
    simp [jsSplit, hc, ih]

theorem parseApiKeys_single (ks : String) (h : ',' ∉ ks.toList) :
    parseApiKeys ks = [jsTrim ks] := by
  have h2 : jsSplit ',' ks.toList = [ks.toList] := jsSplit_no_sep ',' ks.toList h
  simp only [parseApiKeys, jsSplitStr, String.toList] at h2 ⊢
  rw [h2]
  rfl

theorem handlerLoop_trace_head (u : Nat → Option String → FetchResult)
    (apiKeys : List String) (cfg : KVConfig) (f i k : Nat) (net : KVNet) :
    (handlerLoop u apiKeys cfg (f + 1) i k net).trace.head? = some apiKeys[k]? := by
  simp only [handlerLoop]
  cases u i apiKeys[k]? with
  | resp s b =>
    by_cases hok : isOk s
    · simp [hok]
    · by_cases h429 : s = 429
      · subst h429
        simp [hok]
      · simp [hok, h429]
  | throw => simp

/-- C4 counterexample: with the single-key pool `["solo1"]` and an
upstream that always answers 429, the call makes exactly one upstream
attempt (`trace = [some "solo1"]`) — the quota-exhaustion response is
NOT followed by a second attempt with the same key — and returns the
all-keys-exhausted result. -/
theorem c4_counterexample :
    handler "POST" (some "img64") (some "solo1") ⟨true, true⟩ (.working (some 0))
        (fun _ _ => FetchResult.resp 429 "quota") =
      ⟨.exhausted, .working (some 0), [0], [some "solo1"]⟩ := by
  decide

/-- C4 (amended): with a pool of size 1, a quota-exhaustion response on
the single attempt advances the index to `(k + 1) % 1 = 0`, persists 0,
and the loop terminates after exactly one attempt with the
all-keys-exhausted (429-class) result; there is no second attempt. -/
theorem c4_single_key (img ks : String) (cfg : KVConfig) (net : KVNet)
    (u : Nat → Option String → FetchResult) (b : String)
    (himg : img ≠ "") (hks : ks ≠ "") (hcomma : ',' ∉ ks.toList)
    (hurl : cfg.hasUrl = true)
    (hresp : u 0 ((parseApiKeys ks)[getCurrentKeyIndex cfg net]?) = .resp 429 b) :
    handler "POST" (some img) (some ks) cfg net u =
      ⟨.exhausted, setCurrentKeyIndex cfg net 0, [0],
        [(parseApiKeys ks)[getCurrentKeyIndex cfg net]?]⟩ := by
  rw [handler_eq_loop img ks cfg net u himg hks hurl]
  have hlen : (parseApiKeys ks).length = 1 := by
    rw [parseApiKeys_single ks hcomma]
    rfl
  rw [hlen]
  simp [handlerLoop, hresp, isOk, hlen, Nat.mod_one]

theorem c4_single_key_witness :
    handler "POST" (some "img64") (some "solo2") ⟨true, true⟩ (.working none)
        (fun _ _ => FetchResult.resp 429 "quota") =
      ⟨.exhausted, .working (some 0), [0], [some "solo2"]⟩ :=
  (c4_single_key "img64" "solo2" ⟨true, true⟩ (.working none)
    (fun _ _ => FetchResult.resp 429 "quota") "quota"
    (by decide) (by decide) (by decide) rfl rfl).trans (by decide)

/-- C5 counterexample: when the Index Store connection configuration is
absent (`KV_REST_API_URL` unset), the handler does NOT proceed to the
upstream call with the key at position 0: it returns a 500
configuration error with an empty attempt trace. -/
theorem c5_counterexample :
    handler "POST" (some "img64") (some "A,B") ⟨false, true⟩ (.working none)
        (fun _ _ => FetchResult.resp 200 "ok") =
      ⟨.configError, .working none, [], []⟩ := by
  decide

/-- C5 (amended): when the Index Store is configured (`KV_REST_API_URL`
present) but unreachable — its network calls fail — or only its token
is missing, `read` returns 0, every `write` is a swallowed no-op
leaving the store state unchanged, and the handler proceeds to attempt
the upstream call with the key at pool position 0.  (When the store URL
is absent the handler instead fails fast with a configuration error,
see the counterexample.) -/
theorem c5_degraded_store (img ks : String) (cfg : KVConfig) (net : KVNet)
    (u : Nat → Option String → FetchResult)
    (himg : img ≠ "") (hks : ks ≠ "") (hurl : cfg.hasUrl = true)
    (hdown : cfg.hasToken = false ∨ net = .failing) :
    getCurrentKeyIndex cfg net = 0 ∧
    (∀ j, setCurrentKeyIndex cfg net j = net) ∧
    (handler "POST" (some img) (some ks) cfg net u).trace.head? =
      some ((parseApiKeys ks)[0]?) := by
  have h0 : getCurrentKeyIndex cfg net = 0 := by
    rcases hdown with h | h
    · simp [getCurrentKeyIndex, h]
    · subst h
      simp only [getCurrentKeyIndex]
      split <;> rfl
  have hset : ∀ j, setCurrentKeyIndex cfg net j = net := by
    intro j
    rcases hdown with h | h
    · simp [setCurrentKeyIndex, h]
    · subst h
      simp only [setCurrentKeyIndex]
      split <;> rfl
  refine ⟨h0, hset, ?_⟩
  rw [handler_eq_loop img ks cfg net u himg hks hurl, h0]
  obtain ⟨f, hf⟩ := Nat.exists_eq_succ_of_ne_zero
    (Nat.pos_iff_ne_zero.mp (parseApiKeys_length_pos ks))
  rw [hf]
  exact handlerLoop_trace_head u (parseApiKeys ks) cfg f 0 0 net

theorem c5_degraded_store_witness :
    (handler "POST" (some "img64") (some "A,B") ⟨true, true⟩ .failing
        (fun _ _ => FetchResult.resp 200 "ok")).trace.head? =
      some ((parseApiKeys "A,B")[0]?) :=
  (c5_degraded_store "img64" "A,B" ⟨true, true⟩ .failing
    (fun _ _ => FetchResult.resp 200 "ok")
    (by decide) (by decide) rfl (Or.inr rfl)).2.2

/-- C6: with an always-successful upstream, a call writes nothing to
the Index Store and leaves its state unchanged, so any number of
repeated calls leaves the stored index equal to its initial value. -/
theorem c6_success_idempotent (img ks : String) (cfg : KVConfig)
    (u : Nat → Option String → FetchResult)
    (himg : img ≠ "") (hks : ks ≠ "") (hurl : cfg.hasUrl = true)
    (hok : ∀ i key, ∃ s b, u i key = .resp s b ∧ isOk s = true) :
    ∀ net : KVNet,
      (handler "POST" (some img) (some ks) cfg net u).writes = [] ∧
      (handler "POST" (some img) (some ks) cfg net u).net = net ∧
      ∀ n : Nat,
        (fun m => (handler "POST" (some img) (some ks) cfg m u).net)^[n] net = net := by
  have core : ∀ net : KVNet,
      (handler "POST" (some img) (some ks) cfg net u).writes = [] ∧
      (handler "POST" (some img) (some ks) cfg net u).net = net := by
    intro net
    rw [handler_eq_loop img ks cfg net u himg hks hurl]
    obtain ⟨f, hf⟩ := Nat.exists_eq_succ_of_ne_zero
      (Nat.pos_iff_ne_zero.mp (parseApiKeys_length_pos ks))
    rw [hf]
    obtain ⟨s, b, hr, hs⟩ := hok 0 ((parseApiKeys ks)[getCurrentKeyIndex cfg net]?)
    simp [handlerLoop, hr, hs]
  intro net
  refine ⟨(core net).1, (core net).2, ?_⟩
  intro n
  induction n with
  | zero => rfl
  | succ m ih => rw [Function.iterate_succ_apply', ih, (core net).2]

theorem c6_success_idempotent_witness :
    (handler "POST" (some "img64") (some "U,V") ⟨true, true⟩ (.working (some 1))
        (fun _ _ => FetchResult.resp 200 "text")).writes = [] :=
  ((c6_success_idempotent "img64" "U,V" ⟨true, true⟩
    (fun _ _ => FetchResult.resp 200 "text")
    (by decide) (by decide) rfl
    (fun _ _ => ⟨200, "text", rfl, rfl⟩)) (.working (some 1))).1

theorem jsSplit_sep_append (sep : Char) :
    ∀ (p b : List Char), sep ∉ p →
      jsSplit sep (p ++ sep :: b) = p :: jsSplit sep b
  | [], b, _ => by simp [jsSplit]
  | c :: p, b, h => by
    have hc : ¬ c = sep := fun hh => h (hh ▸ List.mem_cons_self c p)
    have ih := jsSplit_sep_append sep p b (fun hm => h (List.mem_cons_of_mem _ hm))
    simp only [List.cons_append, jsSplit, hc, if_false]
    rw [show jsSplit sep (p.append (sep :: b)) = p :: jsSplit sep b from ih]

/-- Follows the spec's words, not the source: the inbound payload is
"optionally prefixed with a data-URI header that the core must strip
before use", so the value to transmit is everything after the first
comma when a prefix is present, and the payload itself when it carries
no prefix. -/
def specStripDataUri (s : String) : String :=
  if ',' ∈ s.toList then ⟨(s.toList.dropWhile (fun c => c ≠ ',')).tail⟩ else s

/-- C7 counterexample: for the bare (unprefixed) payload "QUJD", the
spec-mandated transmitted value is "QUJD" itself, but the code's
request body carries no data at all (`split(',')[1]` is undefined),
not the bare base64 content. -/
theorem c7_counterexample :
    (mkRequestBody "QUJD").data = none ∧ specStripDataUri "QUJD" = "QUJD" := by
  constructor
  · decide
  · decide

/-- C7 (amended): the data-URI prefix is mandatory, not optional: for a
payload written as prefix, comma, body (neither part containing a
comma), the transmitted data field is exactly the body — the prefix is
never sent — but for a bare payload without a comma the data field is
`none` (JS `undefined`, the field absent), not the bare content. -/
theorem c7_strip_only_with_header (p b : List Char) (hp : ',' ∉ p) (hb : ',' ∉ b) :
    (mkRequestBody ⟨p ++ ',' :: b⟩).data = some ⟨b⟩ ∧
    (mkRequestBody ⟨p⟩).data = none := by
  constructor
  · have h1 : jsSplit ',' (p ++ ',' :: b) = p :: jsSplit ',' b :=
      jsSplit_sep_append ',' p b hp
    have h2 : jsSplit ',' b = [b] := jsSplit_no_sep ',' b hb
    simp [mkRequestBody, pureBase64, jsSplitStr, String.toList, h1, h2]
  · have h3 : jsSplit ',' p = [p] := jsSplit_no_sep ',' p hp
    simp [mkRequestBody, pureBase64, jsSplitStr, String.toList, h3]

theorem c7_strip_only_with_header_witness :
    (mkRequestBody ⟨"data:image/jpeg;base64".toList ++ ',' :: "QUJDRA==".toList⟩).data =
      some ⟨"QUJDRA==".toList⟩ :=
  (c7_strip_only_with_header "data:image/jpeg;base64".toList "QUJDRA==".toList
    (by decide) (by decide)).1

theorem handlerLoop_trace_length_le (u : Nat → Option String → FetchResult)
    (apiKeys : List String) (cfg : KVConfig) :
    ∀ fuel i k net, (handlerLoop u apiKeys cfg fuel i k net).trace.length ≤ fuel := by
  intro fuel
  induction fuel with
  | zero => intro i k net; simp [handlerLoop]
  | succ f ih =>
    intro i k net
    simp only [handlerLoop]
    cases u i apiKeys[k]? with
    | resp s b =>
      by_cases hok : isOk s
      · simp [hok]
      · by_cases h429 : s = 429
        · subst h429
          simp [hok]
          exact ih (i + 1) ((k + 1) % apiKeys.length) _
        · simp [hok, h429]
    | throw =>
      simp
      exact ih (i + 1) ((k + 1) % apiKeys.length) _

theorem handlerLoop_all_retryable (u : Nat → Option String → FetchResult)
    (apiKeys : List String) (cfg : KVConfig)
    (hall : ∀ i key, u i key = .throw ∨ ∃ b, u i key = .resp 429 b) :
    ∀ fuel i k net, (handlerLoop u apiKeys cfg fuel i k net).result = .exhausted := by
  intro fuel
  induction fuel with
  | zero => intro i k net; simp [handlerLoop]
  | succ f ih =>
    intro i k net
    have h429 : isOk 429 = false := rfl
    rcases hall i apiKeys[k]? with ht | ⟨b, hb⟩
    · simp [handlerLoop, ht]
      exact ih (i + 1) ((k + 1) % apiKeys.length) _
    · simp [handlerLoop, hb, h429]
      exact ih (i + 1) ((k + 1) % apiKeys.length) _

/-- C8: the handler makes at most pool-size upstream attempts (and, the
embedding being a total function, always terminates); and if every
attempt ends in quota exhaustion (429) or a thrown transport call, it
returns the single terminal all-keys-exhausted result, whose status is
the fixed quota-class 429. -/
theorem c8_bounded_attempts (img ks : String) (cfg : KVConfig) (net : KVNet)
    (u : Nat → Option String → FetchResult)
    (himg : img ≠ "") (hks : ks ≠ "") (hurl : cfg.hasUrl = true) :
    (handler "POST" (some img) (some ks) cfg net u).trace.length ≤
      (parseApiKeys ks).length ∧
    ((∀ i key, u i key = .throw ∨ ∃ b, u i key = .resp 429 b) →
      (handler "POST" (some img) (some ks) cfg net u).result = .exhausted ∧
      statusOf (handler "POST" (some img) (some ks) cfg net u).result = 429) := by
  rw [handler_eq_loop img ks cfg net u himg hks hurl]
  refine ⟨handlerLoop_trace_length_le u (parseApiKeys ks) cfg _ 0 _ net,
    fun hall => ?_⟩
  have h := handlerLoop_all_retryable u (parseApiKeys ks) cfg hall
    (parseApiKeys ks).length 0 (getCurrentKeyIndex cfg net) net
  exact ⟨h, by rw [h]; rfl⟩

theorem c8_bounded_attempts_witness :
    (handler "POST" (some "img64") (some "X,Y") ⟨true, true⟩ (.working none)
        (fun _ _ => FetchResult.resp 429 "q")).result = .exhausted :=
  ((c8_bounded_attempts "img64" "X,Y" ⟨true, true⟩ (.working none)
    (fun _ _ => FetchResult.resp 429 "q")
    (by decide) (by decide) rfl).2
    (fun _ _ => Or.inr ⟨"q", rfl⟩)).1

theorem handlerLoop_writes_lt (u : Nat → Option String → FetchResult)
    (apiKeys : List String) (cfg : KVConfig) (hpos : 0 < apiKeys.length) :
    ∀ fuel i k net w, w ∈ (handlerLoop u apiKeys cfg fuel i k net).writes →
      w < apiKeys.length := by
  intro fuel
  induction fuel with
  | zero => intro i k net w hw; simp [handlerLoop] at hw
  | succ f ih =>
    intro i k net w hw
    simp only [handlerLoop] at hw
    cases hu : u i apiKeys[k]? with
    | resp s b =>
      rw [hu] at hw
      by_cases hok : isOk s
      · simp [hok] at hw
      · by_cases h429 : s = 429
        · subst h429
          simp [hok] at hw
          rcases hw with rfl | hw
          · exact Nat.mod_lt _ hpos
          · exact ih (i + 1) ((k + 1) % apiKeys.length) _ w hw
        · simp [hok, h429] at hw
    | throw =>
      rw [hu] at hw
      simp at hw
      rcases hw with rfl | hw
      · exact Nat.mod_lt _ hpos
      · exact ih (i + 1) ((k + 1) % apiKeys.length) _ w hw

/-- C9: every value the handler writes to the Index Store lies in
`[0, N)` where `N` is the key-pool size: each write is
`(previous + 1) % N`, so the stored rotation state never leaves the
pool's index range through the handler's own writes. -/
theorem c9_writes_in_range (method : String) (img : Option String) (ks : String)
    (cfg : KVConfig) (net : KVNet) (u : Nat → Option String → FetchResult) :
    ∀ w ∈ (handler method img (some ks) cfg net u).writes,
      w < (parseApiKeys ks).length := by
  intro w hw
  simp only [handler] at hw
  split at hw
  · simp at hw
  · split at hw
    · simp at hw
    · split at hw
      · simp at hw
      · split at hw
        · simp at hw
        · exact handlerLoop_writes_lt u (parseApiKeys ks) cfg
            (parseApiKeys_length_pos ks) _ _ _ _ w hw

theorem c9_writes_in_range_witness :
    (1 : Nat) < (parseApiKeys "A,B,C").length :=
  c9_writes_in_range "POST" (some "img64") "A,B,C" ⟨true, true⟩
    (.working (some 0)) upstreamABC 1 (by decide)

/-- C10: the index read from the Index Store is used to index the key
pool with no bounds check or modulo reduction: with the two-key pool
"A,B" and a stored index of 5, the single attempt is made with an
undefined credential (`none`) — the lookup at position 5 does not exist
and the index is not clamped into `[0, 2)`. -/
theorem c10_unclamped_index :
    (parseApiKeys "A,B").length = 2 ∧
    handler "POST" (some "img64") (some "A,B") ⟨true, true⟩ (.working (some 5))
        (fun _ _ => FetchResult.resp 400 "bad") =
      ⟨.failFast 400 "bad", .working (some 5), [], [none]⟩ := by
  constructor
  · decide
  · decide

end GeminiOcrProxy
